import Mathlib

/-!
Shallow embedding of src/daemon/redis.ts: a Redis-backed compile lock with
heartbeat renewal and stale-lock reclamation.  Store calls are modelled by
their responses, supplied explicitly as Except values (error () stands for a
rejected promise); JavaScript number/string truthiness and parseInt are
modelled explicitly.  Side effects are recorded in the results so that
theorems can speak about which store operations a run performs.
-/

/-- Tunable constant from the source: const lockTTL = 5000 (ms). -/
def lockTTL : Int := 5000

/-- Tunable constant from the source: const maxWaitMs = 15000 (ms). -/
def maxWaitMs : Int := 15000

deriving instance DecidableEq for Except

/-- Result of an awaited store call: ok value, or error () for a rejected
promise. -/
abbrev StoreRes (α : Type) := Except Unit α

/-- Model of the longest decimal-digit prefix of a character list, as consumed
by the JavaScript parseInt; none when there is no digit at all (NaN). -/
def parseDigits (cs : List Char) : Option Nat :=
  let ds := cs.takeWhile Char.isDigit
  if ds.isEmpty then none
  else some (ds.foldl (fun acc c => acc * 10 + (c.toNat - '0'.toNat)) 0)

/-- Model of the JavaScript parseInt(s, 10): skip leading whitespace, read an
optional sign and then the longest digit prefix, ignoring trailing
non-digits; none models NaN (no digits found). -/
def parseInt10 (s : String) : Option Int :=
  let cs := s.toList.dropWhile (fun c => c = ' ' ∨ c = '\t' ∨ c = '\n' ∨ c = '\r')
  match cs with
  | '-' :: rest => (parseDigits rest).map (fun n => -(n : Int))
  | '+' :: rest => (parseDigits rest).map (fun n => (n : Int))
  | _ => (parseDigits cs).map (fun n => (n : Int))

/-- JavaScript truthiness of a string-or-null value (the type of the awaited
redis GET): null and the empty string are falsy, every other string truthy. -/
def jsTruthy : Option String → Bool
  | none => false
  | some s => decide (s ≠ "")

/-- Environment of one call to forceResetLockIfStale: the current clock value
and the responses of the four store calls the function can issue, in source
order (PTTL resource, GET heartbeatKey, DEL resource, DEL heartbeatKey). -/
structure DetectorEnv where
  now : Int
  pttlRes : StoreRes Int
  getHbRes : StoreRes (Option String)
  delResourceRes : StoreRes Unit
  delHbRes : StoreRes Unit
deriving DecidableEq

/-- Observable outcome of one call to forceResetLockIfStale: the boolean it
returns, whether the heartbeat GET was issued, whether each DEL was issued,
and whether the catch block was entered (some issued store call rejected). -/
structure DetectorResult where
  returned : Bool
  readHb : Bool
  attemptedDelResource : Bool
  attemptedDelHb : Bool
  errored : Bool
deriving DecidableEq

/-- Embedding of forceResetLockIfStale from src/daemon/redis.ts.  PTTL -2
(key absent) returns true at once; otherwise the heartbeat value is read and
its age computed with JavaScript semantics (null, the empty string, a
non-numeric value or the value 0 all give an infinite age); a lease without
expiry (PTTL -1) or an age above twice lockTTL triggers deletion of both keys
and a true return; any rejected store call lands in the catch block and the
function returns false.  The function is total: no error escapes it. -/
def forceResetLockIfStale (env : DetectorEnv) : DetectorResult :=
  match env.pttlRes with
  | .error _ => ⟨false, false, false, false, true⟩
  | .ok ttl =>
    if ttl = -2 then ⟨true, false, false, false, false⟩
    else
      match env.getHbRes with
      | .error _ => ⟨false, true, false, false, true⟩
      | .ok rawTs =>
        let hbTs : Option Int :=
          if jsTruthy rawTs then parseInt10 (rawTs.getD "") else some 0
        let hbAge : Option Int :=
          match hbTs with
          | some t => if t ≠ 0 then some (env.now - t) else none
          | none => none
        let stale : Bool :=
          (ttl = -1) || (match hbAge with
            | some a => decide (a > lockTTL * 2)
            | none => true)
        if stale then
          match env.delResourceRes with
          | .error _ => ⟨false, true, true, false, true⟩
          | .ok _ =>
            match env.delHbRes with
            | .error _ => ⟨false, true, true, true, true⟩
            | .ok _ => ⟨true, true, true, true, false⟩
        else ⟨false, true, false, false, false⟩





/-- Resource key built by getCompileLock: the template compile-name. -/
def compileResource (name : String) : String := "compile-" ++ name

/-- Heartbeat key built by getCompileLock: the template resource:hb. -/
def heartbeatKeyOf (resource : String) : String := resource ++ ":hb"

/-- Heartbeat cadence passed to setInterval: Math.floor(lockTTL * 0.7);
5000 * 0.7 evaluates to exactly 3500.0 in IEEE-754 doubles, so the floor is
3500. -/
def heartbeatCadenceMs : Int := 3500

/-- Backoff passed to Bluebird.delay between failed acquire attempts. -/
def retryDelayMs : Int := 200

/-- Data observed when control reaches the catch block of the acquisition
loop: the Date.now() value read by the elapsed-time check, and the store
responses a detector call would see if invoked. -/
structure FailInfo where
  nowAtCheck : Int
  det : DetectorEnv
deriving DecidableEq

/-- Outcome of one iteration of the acquisition loop, as supplied by the
environment: either redlock.lock resolved (with the Date.now() value written
to the heartbeat key and the responses of the initial SET and PEXPIRE, whose
rejection would send control to the catch block described by fi), or
redlock.lock rejected and control went to the catch block directly. -/
inductive LockEvent
  | lockOk (now : Int) (setHbRes : StoreRes Unit) (pexpireRes : StoreRes Unit)
      (fi : FailInfo)
  | lockFail (fi : FailInfo)
deriving DecidableEq

/-- Counters of the observable actions of a run of the acquisition loop:
acquire attempts made, Stale-Lock Detector passes performed, and 200 ms
backoff delays awaited. -/
structure LoopState where
  attempts : Nat
  detPasses : Nat
  delays : Nat
deriving DecidableEq

/-- Effects of a successful acquisition, recorded when getCompileLock
returns a real release function: the resource locked and its lease duration,
the heartbeat key with the value and expiry written to it, and the cadence
of the interval timer started. -/
structure AcquireSuccess where
  resource : String
  leaseMs : Int
  hbKey : String
  hbSetValue : Int
  hbExpiryMs : Int
  tickCadenceMs : Int
deriving DecidableEq

/-- Result of running the acquisition loop against a finite trace of
iteration outcomes: a successful acquisition, the give-up return (no-op
release), or pending when the trace ended with the loop still running. -/
inductive RunResult
  | success (s : LoopState) (info : AcquireSuccess)
  | gaveUp (s : LoopState)
  | pending (s : LoopState)
deriving DecidableEq

/-- Collapse of one iteration outcome to what the try block produces: ok now
when lock, SET and PEXPIRE all resolved (the code then starts the interval
and returns), or the FailInfo for the catch block.  When the initial SET
rejects the PEXPIRE is never issued, hence the match order. -/
def eventOutcome : LockEvent → Except FailInfo Int
  | .lockOk now setHbRes pexpireRes fi =>
    match setHbRes with
    | .error _ => .error fi
    | .ok _ =>
      match pexpireRes with
      | .error _ => .error fi
      | .ok _ => .ok now
  | .lockFail fi => .error fi

/-- Embedding of the while(true) loop of getCompileLock, consuming one trace
event per iteration.  On success it records the lock on compileResource name
with lease lockTTL, the heartbeat SET and PEXPIRE, and the interval cadence.
In the catch block: when Date.now() - start is at least maxWaitMs the
detector runs once; a false report breaks out to the no-op return, while a
true report falls through to the 200 ms delay and the next iteration (the
delay statement sits after the if, so it runs on that path too). -/
def getCompileLockLoop (name : String) (start : Int) :
    List LockEvent → LoopState → RunResult
  | [], s => .pending s
  | ev :: rest, s =>
    let s1 : LoopState := ⟨s.attempts + 1, s.detPasses, s.delays⟩
    match eventOutcome ev with
    | .ok now =>
      .success s1 ⟨compileResource name, lockTTL, heartbeatKeyOf (compileResource name),
        now, lockTTL * 2, heartbeatCadenceMs⟩
    | .error fi =>
      if fi.nowAtCheck - start ≥ maxWaitMs then
        let d := forceResetLockIfStale fi.det
        let s2 : LoopState := ⟨s1.attempts, s1.detPasses + 1, s1.delays⟩
        if d.returned then
          getCompileLockLoop name start rest ⟨s2.attempts, s2.detPasses, s2.delays + 1⟩
        else
          .gaveUp s2
      else
        getCompileLockLoop name start rest ⟨s1.attempts, s1.detPasses, s1.delays + 1⟩

/-- Embedding of getCompileLock name: run the acquisition loop from fresh
counters, with start the Date.now() value read before the loop. -/
def getCompileLock (name : String) (start : Int) (events : List LockEvent) : RunResult :=
  getCompileLockLoop name start events ⟨0, 0, 0⟩

/-- Store operations a release function can issue, in order of appearance:
clearInterval on the heartbeat timer, the redlock unlock, and the DEL of the
heartbeat key. -/
inductive RelOp
  | clearTimer
  | unlockCall
  | delHbCall (key : String)
deriving DecidableEq

/-- Environment of one invocation of a release function: the responses of
the unlock call and of the heartbeat-key DEL. -/
structure ReleaseEnv where
  unlockRes : StoreRes Unit
  delRes : StoreRes Unit
deriving DecidableEq

/-- Model of a JavaScript try-catch with an empty catch block around an
awaited store call: a rejection is swallowed and execution continues. -/
def jsTryIgnore (r : StoreRes Unit) : StoreRes Unit :=
  match r with
  | .ok _ => .ok ()
  | .error _ => .ok ()

/-- Embedding of the release closure returned by getCompileLock on success:
clearInterval(token) first (it cannot throw), then the unlock inside
try-catch, then the heartbeat-key DEL inside try-catch; the returned list
records the operations issued, in order.  An uncaught rejection would
short-circuit the Except monad, so reaching the final list proves every step
ran. -/
def releaseBody (hbKey : String) (env : ReleaseEnv) : Except Unit (List RelOp) := do
  let ops0 := [RelOp.clearTimer]
  let _ ← jsTryIgnore env.unlockRes
  let ops1 := ops0 ++ [RelOp.unlockCall]
  let _ ← jsTryIgnore env.delRes
  let ops2 := ops1 ++ [RelOp.delHbCall hbKey]
  return ops2

/-- Embedding of the fallback return value of getCompileLock on total
failure: an async arrow function with an empty body, issuing no store
operation and never rejecting. -/
def noopReleaseFn (_env : ReleaseEnv) : Except Unit (List RelOp) := Except.ok []

/-- Release function handed to the caller for each loop result: the real
closure over the heartbeat key on success, the no-op on give-up, none while
the loop is still running. -/
def returnedRelease : RunResult → Option (ReleaseEnv → Except Unit (List RelOp))
  | .success _ info => some (releaseBody info.hbKey)
  | .gaveUp _ => some noopReleaseFn
  | .pending _ => none

/-- Environment of one heartbeat interval tick: the Date.now() value written
to the heartbeat key and the responses of the three store calls the tick can
issue, in source order (lock.extend, SET, PEXPIRE). -/
structure TickEnv where
  now : Int
  extendRes : StoreRes Unit
  setRes : StoreRes Unit
  pexpireRes : StoreRes Unit
deriving DecidableEq

/-- Store operations a heartbeat tick can issue. -/
inductive TickOp
  | extendLease (ms : Int)
  | setHb (key : String) (value : Int)
  | pexpireHb (key : String) (ms : Int)
deriving DecidableEq

/-- Embedding of the setInterval callback of getCompileLock: extend the
lease by lockTTL, rewrite the heartbeat key with Date.now(), reset its
expiry to twice lockTTL; the whole body sits in a try with an empty catch,
so the first rejection ends the tick (nothing is retried within it) and no
error escapes.  The returned list records the operations issued, in order. -/
def heartbeatTick (hbKey : String) (env : TickEnv) : List TickOp :=
  match env.extendRes with
  | .error _ => [.extendLease lockTTL]
  | .ok _ =>
    match env.setRes with
    | .error _ => [.extendLease lockTTL, .setHb hbKey env.now]
    | .ok _ => [.extendLease lockTTL, .setHb hbKey env.now,
        .pexpireHb hbKey (lockTTL * 2)]

/-- Model of the redis database contents for the existence check: each key
maps to its value or is absent. -/
abbrev StoreMap := String → Option String

/-- Model of the redis EXISTS command awaited by checkBinaryExistance: the
integer 1 when the key is present, 0 when absent. -/
def existsCmd (store : StoreMap) (key : String) : Int :=
  if (store key).isSome then 1 else 0

/-- JavaScript double negation on a number: 0 is falsy, any other integer
truthy. -/
def jsDoubleBang (n : Int) : Bool := decide (n ≠ 0)

/-- Store operations checkBinaryExistance can issue: only the EXISTS query,
a pure read. -/
inductive ReadOp
  | existsQuery (key : String)
deriving DecidableEq

/-- Embedding of checkBinaryExistance from src/daemon/redis.ts: double
negation of EXISTS on name concatenated with the metadata suffix.  The
suffix constant redisMetadataSuffix lives in src/interfaces, which is not
part of the sources here, so it is a parameter.  The second component
records every store operation issued. -/
def checkBinaryExistance (suffix : String) (store : StoreMap) (name : String) :
    Bool × List ReadOp :=
  (jsDoubleBang (existsCmd store (name ++ suffix)),
    [ReadOp.existsQuery (name ++ suffix)])




/-- Claim C3 as amended: for a call of forceResetLockIfStale in which every
store operation it performs runs without error, with the resource key
present (PTTL result not -2) and the heartbeat either absent or holding a
string that parses to a nonzero integer: if the lease has no expiry (PTTL
-1), or the heartbeat age now minus the parsed timestamp (infinite when the
heartbeat is absent) exceeds twice lockTTL, then both DELs are issued and
the function returns true; otherwise it issues no DEL and returns false. -/
theorem forceResetLockIfStale_stale_decision (env : DetectorEnv) (ttl : Int)
    (raw : Option String)
    (hp : env.pttlRes = .ok ttl) (hg : env.getHbRes = .ok raw)
    (hd1 : env.delResourceRes = .ok ()) (hd2 : env.delHbRes = .ok ())
    (hne : ttl ≠ -2) :
    (raw = none →
      forceResetLockIfStale env = ⟨true, true, true, true, false⟩) ∧
    (∀ (s : String) (t : Int), raw = some s → s ≠ "" → parseInt10 s = some t →
      t ≠ 0 →
      ((ttl = -1 ∨ env.now - t > lockTTL * 2) →
        forceResetLockIfStale env = ⟨true, true, true, true, false⟩) ∧
      (ttl ≠ -1 → env.now - t ≤ lockTTL * 2 →
        forceResetLockIfStale env = ⟨false, true, false, false, false⟩)) := by
  rcases env with ⟨now, pttl, getr, d1, d2⟩
  simp only at hp hg hd1 hd2
  subst hp hg hd1 hd2
  constructor
  · rintro rfl
    simp [forceResetLockIfStale, if_neg hne, jsTruthy]
  · rintro s t rfl hs hpt htz
    constructor
    · intro hcond
      have hstale : (decide (ttl = -1) ||
          decide (now - t > lockTTL * 2)) = true := by
        rcases hcond with h | h <;> simp [h]
      simp [forceResetLockIfStale, if_neg hne, jsTruthy, hs, hpt, htz, hstale]
    · intro h1 h2
      have hstale : (decide (ttl = -1) ||
          decide (now - t > lockTTL * 2)) = false := by
        simp [h1, not_lt_of_ge h2]
      simp [forceResetLockIfStale, if_neg hne, jsTruthy, hs, hpt, htz, hstale]

/-- Witness for the amended claim C3 at a concrete environment: a lease with
a finite 3000 ms remaining and a heartbeat 5000 ms old, so nothing is
deleted and false is returned. -/
theorem forceResetLockIfStale_stale_decision_witness :
    forceResetLockIfStale ⟨20000, .ok 3000, .ok (some "15000"), .ok (), .ok ()⟩ =
      ⟨false, true, false, false, false⟩ :=
  ((forceResetLockIfStale_stale_decision
      ⟨20000, .ok 3000, .ok (some "15000"), .ok (), .ok ()⟩ 3000 (some "15000")
      rfl rfl rfl rfl (by decide)).2 "15000" 15000 rfl (by decide) (by decide)
      (by decide)).2 (by decide) (by decide)

/-- Claim C10: a heartbeat value that is present but empty, non-numeric, or
the string 0 makes forceResetLockIfStale behave exactly as if the heartbeat
key were absent (infinite age, so reclamation-eligible). -/
theorem forceResetLockIfStale_unparsable_heartbeat (env : DetectorEnv)
    (s : String) (hg : env.getHbRes = .ok (some s))
    (hbad : s = "" ∨ parseInt10 s = none ∨ parseInt10 s = some 0) :
    forceResetLockIfStale env =
      forceResetLockIfStale { env with getHbRes := .ok none } := by
  rcases env with ⟨now, pttl, getr, d1, d2⟩
  simp only at hg
  subst hg
  rcases hbad with rfl | hb | hb
  · simp [forceResetLockIfStale, jsTruthy]
  · by_cases hse : s = ""
    · subst hse; simp [forceResetLockIfStale, jsTruthy]
    · simp [forceResetLockIfStale, jsTruthy, hse, hb]
  · by_cases hse : s = ""
    · subst hse; simp [forceResetLockIfStale, jsTruthy]
    · simp [forceResetLockIfStale, jsTruthy, hse, hb]

/-- Witness for claim C10 at a concrete environment: a non-numeric heartbeat
value abc behaves like an absent heartbeat and the lock is reclaimed. -/
theorem forceResetLockIfStale_unparsable_heartbeat_witness :
    forceResetLockIfStale ⟨20000, .ok 3000, .ok (some "abc"), .ok (), .ok ()⟩ =
      forceResetLockIfStale ⟨20000, .ok 3000, .ok none, .ok (), .ok ()⟩ ∧
    forceResetLockIfStale ⟨20000, .ok 3000, .ok (some "abc"), .ok (), .ok ()⟩ =
      ⟨true, true, true, true, false⟩ :=
  ⟨forceResetLockIfStale_unparsable_heartbeat
      ⟨20000, .ok 3000, .ok (some "abc"), .ok (), .ok ()⟩ "abc" rfl
      (Or.inr (Or.inl (by decide))), by decide⟩

/-- Counterexample to claim C1 as stated: a trace in which, beyond the
maximum wait, two failed acquire attempts each trigger a Stale-Lock Detector
pass that reports successful reclamation (PTTL -2, the key is free), so the
loop keeps going: two detector passes have been performed and control has
still not returned to the caller, refuting at most one pass before return. -/
theorem getCompileLock_two_detector_passes :
    getCompileLock "x" 0
      [.lockFail ⟨20000, ⟨20000, .ok (-2), .ok none, .ok (), .ok ()⟩⟩,
       .lockFail ⟨20300, ⟨20300, .ok (-2), .ok none, .ok (), .ok ()⟩⟩] =
      .pending ⟨2, 2, 2⟩ := by decide

/-- Claim C1 as amended: an acquire attempt that fails at or beyond the
maximum wait performs exactly one Stale-Lock Detector pass, and when that
pass reports no reclamation the loop returns to the caller at once, looking
at no further trace event; when a pass reports successful reclamation the
loop continues instead, so a call is not bounded by one detector pass and
can keep looping while reclamations keep succeeding. -/
theorem getCompileLockLoop_stops_on_failed_reclaim (name : String)
    (start : Int) (fi : FailInfo) (rest : List LockEvent) (s : LoopState)
    (helapsed : fi.nowAtCheck - start ≥ maxWaitMs)
    (hnoreclaim : (forceResetLockIfStale fi.det).returned = false) :
    getCompileLockLoop name start (.lockFail fi :: rest) s =
      .gaveUp ⟨s.attempts + 1, s.detPasses + 1, s.delays⟩ := by
  simp [getCompileLockLoop, eventOutcome, helapsed, hnoreclaim]

/-- Witness for the amended claim C1 at a concrete trace: one failed attempt
at 20000 ms with a live heartbeat, detector reports false, the loop returns
after that single pass. -/
theorem getCompileLockLoop_stops_on_failed_reclaim_witness :
    (20000 : Int) - 0 ≥ maxWaitMs ∧
    (forceResetLockIfStale ⟨20000, .ok 3000, .ok (some "16000"), .ok (), .ok ()⟩).returned
      = false ∧
    getCompileLockLoop "x" 0
      [.lockFail ⟨20000, ⟨20000, .ok 3000, .ok (some "16000"), .ok (), .ok ()⟩⟩]
      ⟨0, 0, 0⟩ = .gaveUp ⟨1, 1, 0⟩ :=
  ⟨by decide, by decide,
    getCompileLockLoop_stops_on_failed_reclaim "x" 0
      ⟨20000, ⟨20000, .ok 3000, .ok (some "16000"), .ok (), .ok ()⟩⟩ [] ⟨0, 0, 0⟩
      (by decide) (by decide)⟩

/-- Claim C2, evaluated on the code: an acquire attempt fails at 20000 ms
(beyond the maximum wait), the detector reports successful reclamation
(PTTL -2), and the run still records one 200 ms backoff delay before the
next attempt, because the delay statement sits after the if block and runs
on the successful-reclamation path too, contradicting the loop immediately
comment above it in the source. -/
theorem getCompileLock_delay_after_reclaim :
    getCompileLock "x" 0
      [.lockFail ⟨20000, ⟨20000, .ok (-2), .ok none, .ok (), .ok ()⟩⟩] =
      .pending ⟨1, 1, 1⟩ := by decide

/-- Claim C6: every invocation of the release closure returned on success
runs to completion without raising: it clears the interval timer first, then
issues the unlock and then the heartbeat-key DEL, in that order, whatever
the two store responses are — in particular the DEL is issued even when the
unlock rejects, each rejection being swallowed by its own try-catch. -/
theorem releaseBody_total_ordered (hbKey : String) (env : ReleaseEnv) :
    releaseBody hbKey env =
      Except.ok [RelOp.clearTimer, RelOp.unlockCall, RelOp.delHbCall hbKey] := by
  rcases env with ⟨u, d⟩
  cases u <;> cases d <;> rfl

/-- Claim C7: whenever the acquisition loop gives up (maximum wait elapsed
and the detector could not safely reclaim), getCompileLock still returns
normally, handing the caller the no-op release function, which issues no
store operation and never raises, for every environment. -/
theorem getCompileLock_gaveUp_noop_release (name : String) (start : Int)
    (events : List LockEvent) (s : LoopState)
    (h : getCompileLock name start events = .gaveUp s) :
    returnedRelease (getCompileLock name start events) = some noopReleaseFn ∧
    ∀ env : ReleaseEnv, noopReleaseFn env = Except.ok [] := by
  refine ⟨?_, fun env => rfl⟩
  rw [h]
  rfl

/-- Witness for claim C7 at a concrete trace that exhausts the wait with a
non-reclaimable lock. -/
theorem getCompileLock_gaveUp_noop_release_witness :
    getCompileLock "y" 0
      [.lockFail ⟨17000, ⟨17000, .ok 4000, .ok (some "12000"), .ok (), .ok ()⟩⟩] =
      .gaveUp ⟨1, 1, 0⟩ ∧
    returnedRelease (getCompileLock "y" 0
      [.lockFail ⟨17000, ⟨17000, .ok 4000, .ok (some "12000"), .ok (), .ok ()⟩⟩]) =
      some noopReleaseFn :=
  ⟨by decide,
    (getCompileLock_gaveUp_noop_release "y" 0
      [.lockFail ⟨17000, ⟨17000, .ok 4000, .ok (some "12000"), .ok (), .ok ()⟩⟩]
      ⟨1, 1, 0⟩ (by decide)).1⟩

/-- Claim C8: a successful acquisition locks compile-name with lease
lockTTL (5000 ms), writes the heartbeat key compile-name:hb to the current
time with expiry twice lockTTL (10000 ms), and starts the interval at
0.7 times lockTTL (3500 ms); each tick extends the lease by lockTTL,
rewrites the heartbeat key with the current time and resets its expiry to
twice lockTTL, and a tick whose store calls all succeed issues exactly
those three operations, while any rejection ends the tick with nothing
retried within it (no operation is ever issued twice in one tick) and no
error escaping, heartbeatTick being a total function into an operation
list. -/
theorem getCompileLock_success_effects (name : String) (start now : Int)
    (fi : FailInfo) (rest : List LockEvent) (s : LoopState) :
    getCompileLockLoop name start (.lockOk now (.ok ()) (.ok ()) fi :: rest) s =
      .success ⟨s.attempts + 1, s.detPasses, s.delays⟩
        ⟨compileResource name, lockTTL, heartbeatKeyOf (compileResource name),
          now, lockTTL * 2, heartbeatCadenceMs⟩ ∧
    compileResource name = "compile-" ++ name ∧
    heartbeatKeyOf (compileResource name) = "compile-" ++ (name ++ ":hb") ∧
    lockTTL = 5000 ∧ lockTTL * 2 = 10000 ∧ heartbeatCadenceMs = 3500 ∧
    (∀ (hbKey : String) (env : TickEnv),
      env.extendRes = .ok () → env.setRes = .ok () →
      heartbeatTick hbKey env =
        [.extendLease lockTTL, .setHb hbKey env.now,
          .pexpireHb hbKey (lockTTL * 2)]) ∧
    (∀ (hbKey : String) (env : TickEnv), (heartbeatTick hbKey env).Nodup) := by
  refine ⟨rfl, rfl, String.append_assoc "compile-" name ":hb", rfl, rfl, rfl,
    ?_, ?_⟩
  · rintro hbKey ⟨tnow, ext, st, px⟩ he hs
    simp only at he hs
    subst he hs
    rfl
  · rintro hbKey ⟨tnow, ext, st, px⟩
    rcases ext with e | u <;> rcases st with e2 | u2 <;> simp [heartbeatTick]

/-- Witness for claim C8 at a concrete acquisition at time 5 under the name
foo, and a concrete error-free tick at time 42. -/
theorem getCompileLock_success_effects_witness :
    getCompileLockLoop "foo" 0
      [.lockOk 5 (.ok ()) (.ok ()) ⟨5, ⟨5, .ok 0, .ok none, .ok (), .ok ()⟩⟩]
      ⟨0, 0, 0⟩ =
      .success ⟨1, 0, 0⟩ ⟨"compile-foo", 5000, "compile-foo:hb", 5, 10000, 3500⟩ ∧
    heartbeatTick "compile-foo:hb" ⟨42, .ok (), .ok (), .ok ()⟩ =
      [.extendLease 5000, .setHb "compile-foo:hb" 42,
        .pexpireHb "compile-foo:hb" 10000] := by
  have h := getCompileLock_success_effects "foo" 0 5
    ⟨5, ⟨5, .ok 0, .ok none, .ok (), .ok ()⟩⟩ [] ⟨0, 0, 0⟩
  exact ⟨h.1, h.2.2.2.2.2.2.1 "compile-foo:hb" ⟨42, .ok (), .ok (), .ok ()⟩ rfl rfl⟩

/-- Claim C9: checkBinaryExistance returns true exactly when the key name
concatenated with the metadata suffix is present in the store, and its
recorded operation trace is the single EXISTS query on that key — a pure
read, with no write, delete or lock operation (ReadOp has no other
constructor). -/
theorem checkBinaryExistance_reads_marker (suffix : String) (store : StoreMap)
    (name : String) :
    ((checkBinaryExistance suffix store name).1 = true ↔
      (store (name ++ suffix)).isSome = true) ∧
    (checkBinaryExistance suffix store name).2 =
      [ReadOp.existsQuery (name ++ suffix)] := by
  refine ⟨?_, rfl⟩
  by_cases h : (store (name ++ suffix)).isSome <;>
    simp [checkBinaryExistance, jsDoubleBang, existsCmd, h]

/-- Claim C4: when the remaining-lease query reports the resource key absent
(PTTL result -2), forceResetLockIfStale returns true immediately, without
issuing the heartbeat GET and without issuing any DEL. -/
theorem forceResetLockIfStale_key_absent (env : DetectorEnv)
    (h : env.pttlRes = .ok (-2)) :
    forceResetLockIfStale env = ⟨true, false, false, false, false⟩ := by
  rcases env with ⟨now, pttl, getr, d1, d2⟩
  simp only at h
  subst h
  simp [forceResetLockIfStale]

/-- Witness for claim C4 at a concrete environment. -/
theorem forceResetLockIfStale_key_absent_witness :
    (⟨7, .ok (-2), .ok (some "1"), .ok (), .ok ()⟩ : DetectorEnv).pttlRes = .ok (-2) ∧
    forceResetLockIfStale ⟨7, .ok (-2), .ok (some "1"), .ok (), .ok ()⟩ =
      ⟨true, false, false, false, false⟩ :=
  ⟨rfl, forceResetLockIfStale_key_absent ⟨7, .ok (-2), .ok (some "1"), .ok (), .ok ()⟩ rfl⟩

/-- Claim C5: whenever a store call issued by forceResetLockIfStale rejects
(the catch block is entered, recorded by the errored flag), the function
returns false; the error never escapes, since the embedding is a total
function into DetectorResult, and a failed query never yields true. -/
theorem forceResetLockIfStale_error_conservative (env : DetectorEnv)
    (h : (forceResetLockIfStale env).errored = true) :
    (forceResetLockIfStale env).returned = false := by
  revert h
  rcases env with ⟨now, pttl, getr, d1, d2⟩
  rcases pttl with e | ttl
  · intro _; rfl
  · by_cases httl : ttl = -2
    · simp [forceResetLockIfStale, httl]
    · simp only [forceResetLockIfStale, if_neg httl]
      rcases getr with e | raw
      · intro _; rfl
      · rcases d1 with e1 | u1 <;> rcases d2 with e2 | u2 <;> repeat' split
        all_goals intro h
        all_goals first | rfl | (exact absurd h (by decide))

/-- Witness for claim C5 at a concrete environment whose PTTL call rejects. -/
theorem forceResetLockIfStale_error_conservative_witness :
    (forceResetLockIfStale ⟨7, .error (), .ok none, .ok (), .ok ()⟩).errored = true ∧
    (forceResetLockIfStale ⟨7, .error (), .ok none, .ok (), .ok ()⟩).returned = false :=
  ⟨rfl, forceResetLockIfStale_error_conservative ⟨7, .error (), .ok none, .ok (), .ok ()⟩ rfl⟩

/-- Counterexample to claim C3 as stated: here the remaining-lease query
runs without error and reports no expiry (PTTL -1), so the claim requires
both keys to be deleted and a true return; but the heartbeat GET rejects,
and the code returns false and deletes nothing. -/
theorem forceResetLockIfStale_hb_read_error :
    forceResetLockIfStale ⟨0, .ok (-1), .error (), .ok (), .ok ()⟩ =
      ⟨false, true, false, false, true⟩ := by decide
